import Mathlib

/-!
Verification of `alot/commands/globals.py`: the command bodies of the alot
mail user agent's global mode.  Pure data and the command `apply` methods are
embedded as Lean functions over an explicit `UIState`; the narrow UI-context
interface (`buffer_open`, `buffer_focus`, `get_buffers_of_type`, `notify`,
`set_alarm_in`) is not part of the source file and is modelled from the
specification's contract for it (spec sections 4.4 and 4.5).  Python
exceptions are modelled with `Except String`.
-/

namespace Alot

/-- The type tag of a buffer.  A `SearchBuffer` carries its querystring
(`buffers.SearchBuffer(ui, query)` stores the query); the other buffer
classes used by the source are `BufferlistBuffer`, `EnvelopeBuffer`,
`TagListBuffer`; `other` stands for any further view. -/
inductive BufferKind where
  | search (querystring : String)
  | bufferlist
  | envelope
  | taglist
  | other (tag : Nat)
deriving DecidableEq, Repr

/-- A buffer handle: identity plus type tag (spec section 3: the core needs
only identity and a type tag of each view). -/
structure Buffer where
  id : Nat
  kind : BufferKind
deriving DecidableEq, Repr

/-- `SearchBuffer.querystring`: the query stored in a search buffer. -/
def Buffer.querystring (b : Buffer) : Option String :=
  match b.kind with
  | .search q => some q
  | _ => none

/-- `isinstance(b, buffers.SearchBuffer)`. -/
def Buffer.isSearchBuffer (b : Buffer) : Bool :=
  match b.kind with
  | .search _ => true
  | _ => false

/-- `isinstance(b, buffers.BufferlistBuffer)`. -/
def Buffer.isBufferlistBuffer (b : Buffer) : Bool :=
  match b.kind with
  | .bufferlist => true
  | _ => false

/-- The observable application context state: the ordered buffer stack, the
focused buffer (`ui.current_buffer`, `none` iff no buffer is focused), the
list of user notifications issued so far, and the list of delays of alarms
scheduled so far (`ui.mainloop.set_alarm_in`). -/
structure UIState where
  buffers : List Buffer
  current : Option Buffer
  notes : List String
  alarms : List Nat
deriving DecidableEq, Repr

/-- Modelled from the spec: `notify(message)` reports a message to the user
(spec section 4.5); observationally it appends to the notification log. -/
def notify (m : String) (s : UIState) : UIState :=
  ⟨s.buffers, s.current, s.notes ++ [m], s.alarms⟩

/-- Modelled from the spec: `open(buffer)` appends and focuses
(spec section 4.4). -/
def buffer_open (b : Buffer) (s : UIState) : UIState :=
  ⟨s.buffers ++ [b], some b, s.notes, s.alarms⟩

/-- Modelled from the spec: `focus(buffer)` sets focus to an existing member
(spec section 4.4). -/
def buffer_focus (b : Buffer) (s : UIState) : UIState :=
  ⟨s.buffers, some b, s.notes, s.alarms⟩

/-- Modelled from the spec: `find_by_type(tag)` returns all buffers
matching, in stack order (spec section 4.4); `ui.get_buffers_of_type`. -/
def get_buffers_of_type (isType : Buffer → Bool) (s : UIState) : List Buffer :=
  s.buffers.filter isType

/-- Modelled from the spec: `schedule_after(delay, callback)` registers a
retry timer (spec section 4.5); observationally the delay joins the alarm
log.  The callback's firing is modelled by the driver of the command that
scheduled it. -/
def set_alarm_in (delay : Nat) (s : UIState) : UIState :=
  ⟨s.buffers, s.current, s.notes, s.alarms ++ [delay]⟩

/-- The Python comparison `sb.querystring == self.query` performed on the
members of `open_searches` (all of them search buffers). -/
def matchesQuery (query : String) (b : Buffer) : Bool :=
  b.querystring == some query

namespace SearchCommand

/-- The scan-and-dedup part of `SearchCommand.apply` (lines 55-63): collect
open search buffers, remember the last one whose querystring equals the
query, refocus it if one was found, else open a fresh `SearchBuffer` for the
query.  The identity of the freshly created buffer object is the parameter
`newId`. -/
def dedup (query : String) (newId : Nat) (s : UIState) : UIState :=
  let open_searches := get_buffers_of_type Buffer.isSearchBuffer s
  let to_be_focused :=
    open_searches.foldl (fun acc sb => if matchesQuery query sb then some sb else acc) none
  match to_be_focused with
  | some sb => buffer_focus sb s
  | none => buffer_open ⟨newId, .search query⟩ s

/-- `SearchCommand.apply`.  `query` is `self.query` (the joined token list);
`choiceAnswer` is the scripted answer the user would give to the
`really search for all threads?` confirmation choice (only consulted when
`self.query == '*' and ui.current_buffer`). -/
def apply (query choiceAnswer : String) (newId : Nat) (s : UIState) : UIState :=
  if query ≠ "" then
    if (query = "*" ∧ s.current.isSome) ∧ choiceAnswer = "no" then
      s
    else
      dedup query newId s
  else
    notify "empty query string" s

end SearchCommand

namespace OpenBufferlistCommand

/-- `OpenBufferlistCommand.apply` (lines 241-246): focus the first open
bufferlist buffer if any, else open a fresh `BufferlistBuffer` (identity
`newId`). -/
def apply (newId : Nat) (s : UIState) : UIState :=
  match get_buffers_of_type Buffer.isBufferlistBuffer s with
  | blist :: _ => buffer_focus blist s
  | [] => buffer_open ⟨newId, .bufferlist⟩ s

end OpenBufferlistCommand

namespace BufferFocusCommand

/-- `BufferFocusCommand.apply` (lines 223-231).  With a non-zero offset the
source computes `idx = ui.buffers.index(ui.current_buffer)`,
`num = len(ui.buffers)`, picks `ui.buffers[(idx + offset) % num]` and
focuses it; Python's `%` on a positive divisor agrees with `Int.emod`.
`list.index` raises `ValueError` when the element is absent (in particular
on an empty stack, where `ui.current_buffer` is not a member); exceptions
are the `.error` results.  With offset 0 and no buffer argument the source
calls `ui.current_buffer.get_selected_buffer()`, a method only bufferlist
buffers have (defined outside this source file); that call is modelled as
an opaque failure, and no claim depends on it. -/
def apply (offset : Int) (buffer : Option Buffer) (s : UIState) : Except String UIState :=
  if offset ≠ 0 then
    match s.current with
    | none => .error "ValueError: None is not in the buffer list"
    | some cur =>
      if cur ∈ s.buffers then
        let idx := s.buffers.indexOf cur
        let num := s.buffers.length
        match s.buffers[(((idx : Int) + offset).emod (num : Int)).toNat]? with
        | some b => .ok (buffer_focus b s)
        | none => .error "IndexError"
      else
        .error "ValueError: current buffer is not in the buffer list"
  else
    match buffer with
    | some b => .ok (buffer_focus b s)
    | none => .error "get_selected_buffer is external to this source file"

/-- Iterate the `bnext` behavior (offset +1, no explicit buffer) n times,
propagating any exception. -/
def applyNextN : Nat → UIState → Except String UIState
  | 0, s => .ok s
  | n + 1, s =>
    match apply 1 none s with
    | .ok s' => applyNextN n s'
    | .error e => .error e

end BufferFocusCommand

/-- One scripted reply of the storage collaborator's `flush()`: raise
`DatabaseLockedError`, or succeed. -/
inductive FlushOutcome where
  | locked
  | success
deriving DecidableEq, Repr

namespace FlushCommand

/-- `'index locked, will try again in %d secs' % timeout` (line 275). -/
def lockedMessage (timeout : Nat) : String :=
  "index locked, will try again in " ++ toString timeout ++ " secs"

/-- One invocation of `FlushCommand.apply` (lines 264-278) against the head
of the storage script: on success it simply returns; on
`DatabaseLockedError` it reads `flush_retry_timeout`, schedules
`f = self.apply` via `set_alarm_in`, notifies the user, and returns.  The
boolean records whether a retry alarm was scheduled. -/
def applyOnce (timeout : Nat) (outcome : FlushOutcome) (s : UIState) : UIState × Bool :=
  match outcome with
  | .success => (s, false)
  | .locked => (notify (lockedMessage timeout) (set_alarm_in timeout s), true)

/-- Driver: run `apply`, and whenever a retry alarm was scheduled, fire it,
which re-invokes the full `apply` logic against the next scripted `flush()`
reply (each retry re-checks the lock).  An exhausted script means the
database is no longer locked, so `flush()` succeeds.  Returns the number of
flush attempts together with the final state. -/
def run (timeout : Nat) : List FlushOutcome → UIState → Nat × UIState
  | [], s => (1, s)
  | o :: rest, s =>
    let p := applyOnce timeout o s
    if p.2 then
      let r := run timeout rest p.1
      (r.1 + 1, r.2)
    else
      (1, p.1)

end FlushCommand

/-- Python's substring containment `pat in l` on the character list of a
string, by structural scan. -/
def pyContainsAux (pat : List Char) : List Char → Bool
  | [] => pat.isEmpty
  | c :: rest => pat.isPrefixOf (c :: rest) || pyContainsAux pat rest

/-- Python's `pat in s` for strings. -/
def pyContains (pat s : String) : Bool :=
  pyContainsAux pat.data s.data

/-- Python's `str.replace`: replace every non-overlapping occurrence of
`pat`, leftmost first.  `fuel` bounds the scan (the string's length
suffices for the non-empty patterns used here). -/
def pyReplaceAux (pat rep : List Char) : Nat → List Char → List Char
  | 0, l => l
  | _ + 1, [] => []
  | fuel + 1, c :: rest =>
    if pat.isPrefixOf (c :: rest) then
      rep ++ pyReplaceAux pat rep fuel ((c :: rest).drop pat.length)
    else
      c :: pyReplaceAux pat rep fuel rest

/-- Python's `s.replace(pat, rep)`. -/
def pyReplace (s pat rep : String) : String :=
  ⟨pyReplaceAux pat.data rep.data s.data.length s.data⟩

namespace ExternalCommand

/-- The literal placeholder `'\x7b\x7d'` of the command template. -/
def placeholder : String := "\x7b\x7d"

/-- The command-line construction of `ExternalCommand.apply.thread_code`
(lines 132-147): with a truthy path, substitute the shell-quoted path for
the placeholder when the template contains it, else append it after a
space; with no (or an empty, hence falsy) path use the template unchanged;
with `spawn` set, prefix the configured `terminal_cmd` and a space.
`quote` is `helper.shell_quote`, external to this source file, so it is a
parameter. -/
def thread_cmd (quote : String → String) (commandstring : String)
    (path : Option String) (spawn : Bool) (terminal_cmd : String) : String :=
  let cmd :=
    match path with
    | some p =>
      if p ≠ "" then
        if pyContains placeholder commandstring then
          pyReplace commandstring placeholder (quote p)
        else
          commandstring ++ " " ++ quote p
      else
        commandstring
    | none => commandstring
  if spawn then terminal_cmd ++ " " ++ cmd else cmd

/-- What `thread_code` writes to the completion pipe: `'success'` exactly
when the subprocess returncode is 0, nothing otherwise (lines 148-150). -/
def pipeData (returncode : Int) : Option String :=
  if returncode = 0 then some "success" else none

/-- The completion callback `afterwards(data)` (lines 122-127): run
`self.on_success()` when it is callable and the pipe data equals
`'success'`; then, when `self.refocus` holds and the invoking buffer is
still a member of the (possibly on_success-mutated) buffer stack, refocus
it.  `on_success` is an arbitrary callable, modelled as an optional state
transformer; the boolean output records whether it was invoked. -/
def afterwards (on_success : Option (UIState → UIState)) (refocus : Bool)
    (callerbuffer : Option Buffer) (data : String) (s : UIState) : UIState × Bool :=
  let step1 : UIState × Bool :=
    if on_success.isSome ∧ data = "success" then
      ((on_success.getD id) s, true)
    else
      (s, false)
  match callerbuffer with
  | some cb =>
    if refocus ∧ cb ∈ step1.1.buffers then (buffer_focus cb step1.1, step1.2) else step1
  | none => step1

/-- The completion path of `ExternalCommand.apply` (lines 120-159):
remember the invoking buffer, run the subprocess (its exit code is the
parameter `returncode`), and deliver the pipe write — if any — to
`afterwards` through `watch_pipe`.  A non-zero exit writes nothing, so
`afterwards` never runs.  The boolean output records whether `on_success`
was invoked. -/
def apply (returncode : Int) (on_success : Option (UIState → UIState))
    (refocus : Bool) (s : UIState) : UIState × Bool :=
  let callerbuffer := s.current
  match pipeData returncode with
  | some data => afterwards on_success refocus callerbuffer data s
  | none => (s, false)

end ExternalCommand

/-- A configured identity of the identity/account collaborator (spec
section 6): a real name and an address. -/
structure Account where
  realname : String
  address : String
deriving DecidableEq, Repr

/-- The headers of the message being composed that `ComposeCommand.apply`
reads and writes: `From`, `To`, `Subject` (`none` = header absent). -/
structure ComposeMail where
  fromHdr : Option String
  toHdr : Option String
  subjectHdr : Option String
deriving DecidableEq, Repr

namespace ComposeCommand

/-- Modelled from the spec: `get_account_by_address`, the address→identity
lookup of the identity collaborator (spec section 6). -/
def get_account_by_address (accounts : List Account) (addr : String) : Option Account :=
  accounts.find? (fun a => a.address == addr)

/-- `"%s <%s>" % (a.realname, a.address)` (line 402). -/
def fromString (a : Account) : String :=
  a.realname ++ " <" ++ a.address ++ ">"

/-- The From-prompt validation loop (lines 392-398): prompt, and while the
answer is not in `validaddresses` (the account addresses plus `None`),
notify and prompt again.  `script` scripts the successive prompt answers
(`none` = the user cancels).  Returns the answer that left the loop, the
unconsumed script, and the state; a `none` first component means the
script ran out while the loop was still going (the interaction would still
be pending). -/
def fromLoop (valid : List String) :
    List (Option String) → UIState → Option (Option String) × List (Option String) × UIState
  | [], s => (none, [], s)
  | ans :: rest, s =>
    let ok :=
      match ans with
      | none => true
      | some a => valid.contains a
    if ok then
      (some ans, rest, s)
    else
      fromLoop valid rest (notify "no account for this address. (<esc> cancels)" s)

/-- The Subject step and the final dispatch of `ComposeCommand.apply`
(lines 418-425): when `ask_subject` is configured and no Subject is set,
prompt for it (cancel aborts with a `canceled` notification); finally the
command hands the mail to `EnvelopeEditCommand` via `ui.apply_command`
(that command lives outside this source file; reaching it is recorded by
the boolean envelope flag). -/
def applySubject (ask_subject : Bool) (script : List (Option String))
    (mail : ComposeMail) (s : UIState) : Except String (UIState × ComposeMail × Bool) :=
  if ask_subject ∧ mail.subjectHdr = none then
    match script with
    | [] => .error "prompt script exhausted"
    | ans :: _rest =>
      match ans with
      | none => .ok (notify "canceled" s, mail, false)
      | some subj => .ok (s, ⟨mail.fromHdr, mail.toHdr, some subj⟩, true)
  else
    .ok (s, mail, true)

/-- The To step of `ComposeCommand.apply` (lines 405-417): when no To is
set, assemble the address books (a pure read of external collaborators with
no observable effect here) and prompt; cancel aborts with a `canceled`
notification, an answer fills the header. -/
def applyTo (ask_subject : Bool) (script : List (Option String))
    (mail : ComposeMail) (s : UIState) : Except String (UIState × ComposeMail × Bool) :=
  match mail.toHdr with
  | some _ => applySubject ask_subject script mail s
  | none =>
    match script with
    | [] => .error "prompt script exhausted"
    | ans :: rest =>
      match ans with
      | none => .ok (notify "canceled" s, mail, false)
      | some t => applySubject ask_subject rest ⟨mail.fromHdr, some t, mail.subjectHdr⟩ s

/-- `ComposeCommand.apply` (lines 378-425), From step first: with no From
header, zero accounts abort with `no accounts set`; one account is used
directly; with several, the From prompt runs through `fromLoop`, and the
loop's answer is checked by `if not fromaddress` — Python falsiness, i.e.
`None` (cancel) or the empty string — which aborts with a `canceled`
notification before any buffer is touched.  Otherwise the account found by
address fills the From header and the command continues with the To step. -/
def apply (accounts : List Account) (ask_subject : Bool)
    (script : List (Option String)) (mail : ComposeMail) (s : UIState) :
    Except String (UIState × ComposeMail × Bool) :=
  match mail.fromHdr with
  | some _ => applyTo ask_subject script mail s
  | none =>
    match accounts with
    | [] => .ok (notify "no accounts set" s, mail, false)
    | [a] => applyTo ask_subject script ⟨some (fromString a), mail.toHdr, mail.subjectHdr⟩ s
    | _ :: _ :: _ =>
      let valid := accounts.map (fun a => a.address)
      let r := fromLoop valid script s
      match r.1 with
      | none => .error "prompt script exhausted"
      | some ansOpt =>
        match ansOpt with
        | none => .ok (notify "canceled" r.2.2, mail, false)
        | some addr =>
          if addr = "" then
            .ok (notify "canceled" r.2.2, mail, false)
          else
            match get_account_by_address accounts addr with
            | none => .error "no account for the validated address"
            | some a =>
              applyTo ask_subject r.2.1 ⟨some (fromString a), mail.toHdr, mail.subjectHdr⟩ r.2.2

end ComposeCommand

/-- Modelled from the spec: a command descriptor's parameter overrides
(spec sections 3 and 4.2).  `registerCommand` itself lives in
`alot/commands/__init__.py`, outside this source file; only the override
semantics matters here: forced overrides are applied first and can never be
changed by caller-supplied arguments, defaults fill parameters the user did
not supply. -/
structure CommandDescriptor where
  forced : List (String × Int)
  defaults : List (String × Int)
deriving DecidableEq, Repr

/-- Modelled from the spec: resolve one parameter (spec section 4.2
resolution order — forced overrides, then user-supplied values, then the
descriptor's defaults, then the schema default). -/
def resolveParam (d : CommandDescriptor) (user : List (String × Int))
    (name : String) (schemaDefault : Int) : Int :=
  match d.forced.lookup name with
  | some v => v
  | none =>
    match user.lookup name with
    | some v => v
    | none =>
      match d.defaults.lookup name with
      | some v => v
      | none => schemaDefault

/-- `@registerCommand(MODE, 'bnext', forced={'offset': +1})` (line 210). -/
def bnextDescriptor : CommandDescriptor := ⟨[("offset", 1)], []⟩

/-- `@registerCommand(MODE, 'bprevious', forced={'offset': -1})` (line 209). -/
def bpreviousDescriptor : CommandDescriptor := ⟨[("offset", -1)], []⟩

/-- The `bnext` command: `BufferFocusCommand` constructed with the offset
resolved against `bnextDescriptor`, whatever parameters the user supplied
(the constructor's schema default for `offset` is 0, for `buffer` none). -/
def bnextApply (user : List (String × Int)) (s : UIState) : Except String UIState :=
  BufferFocusCommand.apply (resolveParam bnextDescriptor user "offset" 0) none s

/-- The `bprevious` command, likewise resolved against
`bpreviousDescriptor`. -/
def bpreviousApply (user : List (String × Int)) (s : UIState) : Except String UIState :=
  BufferFocusCommand.apply (resolveParam bpreviousDescriptor user "offset" 0) none s

/-! ## Theorems -/

/-- C10: executing the search command with an empty query string emits only
the `empty query string` notification; the buffer stack, the focused buffer
and the alarms are left unchanged, and the result does not depend on the
confirmation-choice answer or on the fresh-buffer identity — so no
confirmation choice is consulted and no buffer open occurs. -/
theorem search_empty_query_noop (s : UIState) (ans ans' : String) (newId newId' : Nat) :
    (SearchCommand.apply "" ans newId s).buffers = s.buffers ∧
    (SearchCommand.apply "" ans newId s).current = s.current ∧
    (SearchCommand.apply "" ans newId s).alarms = s.alarms ∧
    (SearchCommand.apply "" ans newId s).notes = s.notes ++ ["empty query string"] ∧
    SearchCommand.apply "" ans newId s = SearchCommand.apply "" ans' newId' s := by
  simp [SearchCommand.apply, notify]

/-- C9: when a bufferlist buffer is already open, the bufferlist command
refocuses the first one in stack order and opens no new buffer; a new
bufferlist buffer is opened (appended and focused) only when none exists. -/
theorem openBufferlist_dedup (s : UIState) (newId : Nat) :
    (∀ b, (s.buffers.filter Buffer.isBufferlistBuffer).head? = some b →
      (OpenBufferlistCommand.apply newId s).buffers = s.buffers ∧
      (OpenBufferlistCommand.apply newId s).current = some b) ∧
    (s.buffers.filter Buffer.isBufferlistBuffer = [] →
      (OpenBufferlistCommand.apply newId s).buffers = s.buffers ++ [⟨newId, .bufferlist⟩] ∧
      (OpenBufferlistCommand.apply newId s).current = some ⟨newId, .bufferlist⟩) := by
  unfold OpenBufferlistCommand.apply get_buffers_of_type
  cases hfl : s.buffers.filter Buffer.isBufferlistBuffer with
  | nil =>
    refine ⟨fun b hb => ?_, fun _ => ?_⟩
    · simp at hb
    · simp [buffer_open]
  | cons x xs =>
    refine ⟨fun b hb => ?_, fun h => ?_⟩
    · simp at hb
      subst hb
      simp [buffer_focus]
    · simp at h

/-- C9 witness: with a stack holding one bufferlist buffer behind another
buffer, the bufferlist command keeps the stack and focuses that buffer. -/
theorem openBufferlist_dedup_witness :
    ((⟨[⟨0, .other 0⟩, ⟨1, .bufferlist⟩], some ⟨0, .other 0⟩, [], []⟩ :
        UIState).buffers.filter Buffer.isBufferlistBuffer).head? = some ⟨1, .bufferlist⟩ ∧
    ((OpenBufferlistCommand.apply 9
        ⟨[⟨0, .other 0⟩, ⟨1, .bufferlist⟩], some ⟨0, .other 0⟩, [], []⟩).buffers =
      [⟨0, .other 0⟩, ⟨1, .bufferlist⟩] ∧
     (OpenBufferlistCommand.apply 9
        ⟨[⟨0, .other 0⟩, ⟨1, .bufferlist⟩], some ⟨0, .other 0⟩, [], []⟩).current =
      some ⟨1, .bufferlist⟩) :=
  ⟨by decide,
   (openBufferlist_dedup ⟨[⟨0, .other 0⟩, ⟨1, .bufferlist⟩], some ⟨0, .other 0⟩, [], []⟩ 9).1
     ⟨1, .bufferlist⟩ (by decide)⟩

/-- C3: against a storage collaborator that raises the locked condition
exactly twice and then succeeds, the flush command makes exactly 3
attempts and terminates, with exactly two notifications, each preceded by
scheduling a retry after the configured `flush_retry_timeout` delay; and a
retry re-invokes the full flush logic, re-checking the lock — a third
locked reply produces a fourth attempt instead of being assumed gone. -/
theorem flush_retry_three_attempts (timeout : Nat) (s : UIState) :
    FlushCommand.run timeout [.locked, .locked, .success] s =
      (3, ⟨s.buffers, s.current,
           s.notes ++ [FlushCommand.lockedMessage timeout, FlushCommand.lockedMessage timeout],
           s.alarms ++ [timeout, timeout]⟩) ∧
    (FlushCommand.run timeout [.locked, .locked, .locked, .success] s).1 = 4 := by
  constructor
  · simp [FlushCommand.run, FlushCommand.applyOnce, notify, set_alarm_in]
  · simp [FlushCommand.run, FlushCommand.applyOnce]

/-- C6: `bnext` and `bprevious` are registrations of the single
`BufferFocusCommand` implementation with forced offsets +1 and -1; no
user-supplied parameter can change the resolved offset, so for every list
of user-supplied parameters the two commands behave exactly as
focus-by-offset with +1 and -1. -/
theorem bnext_bprevious_forced_offset (user : List (String × Int)) (s : UIState) :
    resolveParam bnextDescriptor user "offset" 0 = 1 ∧
    resolveParam bpreviousDescriptor user "offset" 0 = -1 ∧
    bnextApply user s = BufferFocusCommand.apply 1 none s ∧
    bpreviousApply user s = BufferFocusCommand.apply (-1) none s := by
  refine ⟨rfl, rfl, rfl, rfl⟩

/-- C7: external command-line construction — with a (truthy) path, the
shell-quoted path replaces the placeholder when the template contains it,
else it is appended after one space; with no path the template is used
unchanged; and the spawn option prefixes the configured `terminal_cmd` and
a space around whatever the non-spawn construction yields. -/
theorem external_cmdline_construction (quote : String → String) (cs : String) (p : String)
    (tcmd : String) :
    (p ≠ "" → pyContains ExternalCommand.placeholder cs = true →
      ExternalCommand.thread_cmd quote cs (some p) false tcmd =
        pyReplace cs ExternalCommand.placeholder (quote p)) ∧
    (p ≠ "" → pyContains ExternalCommand.placeholder cs = false →
      ExternalCommand.thread_cmd quote cs (some p) false tcmd = cs ++ " " ++ quote p) ∧
    ExternalCommand.thread_cmd quote cs none false tcmd = cs ∧
    (∀ path : Option String,
      ExternalCommand.thread_cmd quote cs path true tcmd =
        tcmd ++ " " ++ ExternalCommand.thread_cmd quote cs path false tcmd) := by
  refine ⟨fun hp hc => ?_, fun hp hc => ?_, rfl, fun path => ?_⟩
  · simp [ExternalCommand.thread_cmd, hp, hc]
  · simp [ExternalCommand.thread_cmd, hp, hc]
  · cases path with
    | none => rfl
    | some q => simp [ExternalCommand.thread_cmd]

/-- C7 witness: a template containing the placeholder, a non-empty path
and a concrete quoting function exercise the substitution branch. -/
theorem external_cmdline_construction_witness :
    ("doc.pdf" ≠ "") ∧
    pyContains ExternalCommand.placeholder "view \x7b\x7d now" = true ∧
    ExternalCommand.thread_cmd (fun x => "'" ++ x ++ "'") "view \x7b\x7d now"
        (some "doc.pdf") false "xterm -e" =
      pyReplace "view \x7b\x7d now" ExternalCommand.placeholder "'doc.pdf'" :=
  ⟨by decide, by decide,
   (external_cmdline_construction (fun x => "'" ++ x ++ "'") "view \x7b\x7d now" "doc.pdf"
      "xterm -e").1 (by decide) (by decide)⟩

/-- C5: the success continuation of an external command — the `on_success`
callback followed by the refocus of the invoking buffer — runs exactly when
the subprocess exits with code 0 (nothing is written to the completion pipe
otherwise, so the callback never fires on a non-zero exit and the state is
untouched); a missing (non-callable) `on_success` is never invoked; and the
invoking buffer is refocused exactly when it is still a member of the
buffer stack at completion time, i.e. after `on_success` ran. -/
theorem external_success_continuation (rc : Int) (f : UIState → UIState) (refocus : Bool)
    (s : UIState) :
    ((ExternalCommand.apply rc (some f) refocus s).2 = true ↔ rc = 0) ∧
    (rc ≠ 0 → ExternalCommand.apply rc (some f) refocus s = (s, false)) ∧
    (ExternalCommand.apply rc none refocus s).2 = false ∧
    (∀ cb, rc = 0 → s.current = some cb → cb ∈ (f s).buffers →
      ExternalCommand.apply rc (some f) true s = (buffer_focus cb (f s), true)) ∧
    (∀ cb, rc = 0 → s.current = some cb → cb ∉ (f s).buffers →
      ExternalCommand.apply rc (some f) true s = (f s, true)) := by
  refine ⟨?_, fun hrc => ?_, ?_, fun cb hrc hcur hmem => ?_, fun cb hrc hcur hmem => ?_⟩
  · by_cases hrc : rc = 0
    · subst hrc
      simp [ExternalCommand.apply, ExternalCommand.pipeData, ExternalCommand.afterwards]
      cases s.current with
      | none => simp
      | some cb => by_cases h : refocus ∧ cb ∈ (f s).buffers <;> simp [h]
    · simp [ExternalCommand.apply, ExternalCommand.pipeData, hrc]
  · simp [ExternalCommand.apply, ExternalCommand.pipeData, hrc]
  · by_cases hrc : rc = 0
    · subst hrc
      simp [ExternalCommand.apply, ExternalCommand.pipeData, ExternalCommand.afterwards]
      cases s.current with
      | none => simp
      | some cb => by_cases h : refocus ∧ cb ∈ s.buffers <;> simp [h]
    · simp [ExternalCommand.apply, ExternalCommand.pipeData, hrc]
  · subst hrc
    simp [ExternalCommand.apply, ExternalCommand.pipeData, ExternalCommand.afterwards, hcur, hmem]
  · subst hrc
    simp [ExternalCommand.apply, ExternalCommand.pipeData, ExternalCommand.afterwards, hcur, hmem]

/-- C5 witness: with exit code 1 the continuation does not run and the
state is untouched. -/
theorem external_success_continuation_witness :
    ((1 : Int) ≠ 0) ∧
    ExternalCommand.apply 1 (some id) false ⟨[⟨0, .other 0⟩], some ⟨0, .other 0⟩, [], []⟩ =
      (⟨[⟨0, .other 0⟩], some ⟨0, .other 0⟩, [], []⟩, false) :=
  ⟨by decide,
   (external_success_continuation 1 id false
      ⟨[⟨0, .other 0⟩], some ⟨0, .other 0⟩, [], []⟩).2.1 (by decide)⟩

/-- C4: with no From header set and more than one configured identity,
answering the From prompt with cancellation makes the compose command abort
with exactly a `canceled` notification: the envelope step is never reached,
the mail headers are untouched, and the buffer stack and focus are left
unchanged. -/
theorem compose_from_cancel (accounts : List Account) (ask : Bool)
    (rest : List (Option String)) (mail : ComposeMail) (s : UIState)
    (hFrom : mail.fromHdr = none) (hacc : 2 ≤ accounts.length) :
    ComposeCommand.apply accounts ask (none :: rest) mail s =
      .ok (notify "canceled" s, mail, false) ∧
    (notify "canceled" s).buffers = s.buffers ∧
    (notify "canceled" s).current = s.current ∧
    (notify "canceled" s).notes = s.notes ++ ["canceled"] := by
  match accounts with
  | [] => simp at hacc
  | [a] => simp at hacc
  | a :: b :: t =>
    refine ⟨?_, rfl, rfl, rfl⟩
    simp [ComposeCommand.apply, hFrom, ComposeCommand.fromLoop]

/-- C4 witness: two identities, an unset From header and a cancellation as
the first prompt answer. -/
theorem compose_from_cancel_witness :
    (⟨none, none, none⟩ : ComposeMail).fromHdr = none ∧
    2 ≤ ([⟨"Ann", "ann@x"⟩, ⟨"Bob", "bob@x"⟩] : List Account).length ∧
    ComposeCommand.apply [⟨"Ann", "ann@x"⟩, ⟨"Bob", "bob@x"⟩] true [none] ⟨none, none, none⟩
        ⟨[⟨0, .other 0⟩], some ⟨0, .other 0⟩, [], []⟩ =
      .ok (notify "canceled" ⟨[⟨0, .other 0⟩], some ⟨0, .other 0⟩, [], []⟩,
           ⟨none, none, none⟩, false) :=
  ⟨rfl, by decide,
   (compose_from_cancel [⟨"Ann", "ann@x"⟩, ⟨"Bob", "bob@x"⟩] true [] ⟨none, none, none⟩
      ⟨[⟨0, .other 0⟩], some ⟨0, .other 0⟩, [], []⟩ rfl (by decide)).1⟩

/-- C8 counterexample: on an empty buffer stack, focus-by-offset is not
defensively rejected with a notification — the index lookup raises a
`ValueError` that propagates out of the command's `apply`. -/
theorem bufferFocus_empty_stack_counterexample :
    BufferFocusCommand.apply 1 none ⟨[], none, [], []⟩ =
      .error "ValueError: None is not in the buffer list" := by
  rfl

/-- C8 amended: executing focus-by-offset (non-zero offset) against an
empty buffer stack raises an exception out of the command — there is no
defensive guard and no notification is issued; a non-empty stack is a
caller precondition, as the spec's design notes record. -/
theorem bufferFocus_empty_stack_raises (s : UIState) (k : Int) (b : Option Buffer)
    (hk : k ≠ 0) (hempty : s.buffers = []) :
    ∃ msg, BufferFocusCommand.apply k b s = .error msg := by
  unfold BufferFocusCommand.apply
  cases hc : s.current with
  | none =>
    exact ⟨"ValueError: None is not in the buffer list", by simp [hk, hc]⟩
  | some cur =>
    exact ⟨"ValueError: current buffer is not in the buffer list", by simp [hk, hc, hempty]⟩

/-- C8 witness: the empty stack with offset 1. -/
theorem bufferFocus_empty_stack_raises_witness :
    ((1 : Int) ≠ 0) ∧
    (⟨[], none, [], []⟩ : UIState).buffers = [] ∧
    ∃ msg, BufferFocusCommand.apply 1 none ⟨[], none, [], []⟩ = .error msg :=
  ⟨by decide, rfl, bufferFocus_empty_stack_raises ⟨[], none, [], []⟩ 1 none (by decide) rfl⟩

/-- Helper: the last-match fold of `SearchCommand.dedup` returns its
initial value when nothing in the list matches the query. -/
theorem lastMatch_of_no_match (q : String) (l : List Buffer) (init : Option Buffer)
    (h : ∀ b ∈ l, matchesQuery q b = false) :
    l.foldl (fun acc sb => if matchesQuery q sb then some sb else acc) init = init := by
  induction l generalizing init with
  | nil => rfl
  | cons x xs ih =>
    have hx : matchesQuery q x = false := h x (List.mem_cons_self x xs)
    rw [List.foldl_cons, if_neg (by simp [hx])]
    exact ih init fun b hb => h b (List.mem_cons_of_mem x hb)

/-- Helper: when some member matches the query, the last-match fold of
`SearchCommand.dedup` yields a matching member. -/
theorem lastMatch_of_match (q : String) (l : List Buffer) (init : Option Buffer)
    (h : ∃ b ∈ l, matchesQuery q b = true) :
    ∃ b, l.foldl (fun acc sb => if matchesQuery q sb then some sb else acc) init = some b ∧
      b ∈ l ∧ matchesQuery q b = true := by
  induction l generalizing init with
  | nil => simp at h
  | cons x xs ih =>
    by_cases hxs : ∃ b ∈ xs, matchesQuery q b = true
    · obtain ⟨b, heq, hmem, hq⟩ := ih (if matchesQuery q x then some x else init) hxs
      exact ⟨b, by rw [List.foldl_cons]; exact heq, List.mem_cons_of_mem x hmem, hq⟩
    · have hx : matchesQuery q x = true := by
        obtain ⟨b, hb, hq⟩ := h
        rcases List.mem_cons.mp hb with rfl | hbx
        · exact hq
        · exact absurd ⟨b, hbx, hq⟩ hxs
      have hxs' : ∀ b ∈ xs, matchesQuery q b = false := by
        intro b hb
        cases hq : matchesQuery q b
        · rfl
        · exact absurd ⟨b, hb, hq⟩ hxs
      rw [List.foldl_cons, if_pos (by simp [hx]), lastMatch_of_no_match q xs (some x) hxs']
      exact ⟨x, rfl, List.mem_cons_self x xs, hx⟩

/-- Helper: a buffer whose querystring equals the query is a search
buffer. -/
theorem matchesQuery_isSearchBuffer {q : String} {b : Buffer}
    (h : matchesQuery q b = true) : b.isSearchBuffer = true := by
  cases hk : b.kind <;>
    simp [matchesQuery, Buffer.querystring, Buffer.isSearchBuffer, hk] at h ⊢

/-- Helper: with a matching search buffer in the stack, the dedup scan of
the search command keeps the stack and focuses a matching member. -/
theorem dedup_refocus (s : UIState) (q : String) (newId : Nat)
    (h : ∃ b ∈ s.buffers, matchesQuery q b = true) :
    (SearchCommand.dedup q newId s).buffers = s.buffers ∧
    ∃ b, (SearchCommand.dedup q newId s).current = some b ∧
      b ∈ s.buffers ∧ matchesQuery q b = true := by
  obtain ⟨b0, hb0, hq0⟩ := h
  have hmem0 : b0 ∈ s.buffers.filter Buffer.isSearchBuffer :=
    List.mem_filter.mpr ⟨hb0, matchesQuery_isSearchBuffer hq0⟩
  obtain ⟨b, heq, hmem, hq⟩ :=
    lastMatch_of_match q (s.buffers.filter Buffer.isSearchBuffer) none ⟨b0, hmem0, hq0⟩
  have hd : SearchCommand.dedup q newId s = buffer_focus b s := by
    unfold SearchCommand.dedup get_buffers_of_type
    simp only [heq]
  rw [hd]
  exact ⟨rfl, b, rfl, List.mem_of_mem_filter hmem, hq⟩

/-- Helper: with no matching buffer in the stack, the dedup scan of the
search command opens a fresh search buffer for the query. -/
theorem dedup_opens (s : UIState) (q : String) (newId : Nat)
    (h : ∀ b ∈ s.buffers, matchesQuery q b = false) :
    SearchCommand.dedup q newId s = buffer_open ⟨newId, .search q⟩ s := by
  have h' : ∀ b ∈ s.buffers.filter Buffer.isSearchBuffer, matchesQuery q b = false :=
    fun b hb => h b (List.mem_of_mem_filter hb)
  unfold SearchCommand.dedup get_buffers_of_type
  simp only [lastMatch_of_no_match q (s.buffers.filter Buffer.isSearchBuffer) none h']

/-- Helper: away from the declined `*`-confirmation, a non-empty search
query runs the dedup scan. -/
theorem search_apply_eq_dedup (s : UIState) (q ans : String) (newId : Nat)
    (hq : q ≠ "") (hg : ¬((q = "*" ∧ s.current.isSome = true) ∧ ans = "no")) :
    SearchCommand.apply q ans newId s = SearchCommand.dedup q newId s := by
  unfold SearchCommand.apply
  rw [if_pos hq, if_neg hg]

/-- Helper: the fresh search buffer matches its own query. -/
theorem matchesQuery_new (q : String) (newId : Nat) :
    matchesQuery q ⟨newId, .search q⟩ = true := by
  simp [matchesQuery, Buffer.querystring]

/-- C1 counterexample: with the stack holding a search buffer for `*` and a
different focused buffer, running search for `*` and declining the
confirmation leaves the state unchanged — the matching search buffer is not
refocused, refuting the claim for the query `*`. -/
theorem search_dedup_star_counterexample :
    ((⟨[⟨0, .search "*"⟩, ⟨1, .other 0⟩], some ⟨1, .other 0⟩, [], []⟩ :
        UIState).buffers.filter (matchesQuery "*")).length = 1 ∧
    SearchCommand.apply "*" "no" 5
        ⟨[⟨0, .search "*"⟩, ⟨1, .other 0⟩], some ⟨1, .other 0⟩, [], []⟩ =
      ⟨[⟨0, .search "*"⟩, ⟨1, .other 0⟩], some ⟨1, .other 0⟩, [], []⟩ ∧
    (SearchCommand.apply "*" "no" 5
        ⟨[⟨0, .search "*"⟩, ⟨1, .other 0⟩], some ⟨1, .other 0⟩, [], []⟩).current ≠
      some ⟨0, .search "*"⟩ := by
  refine ⟨by decide, by decide, by decide⟩

/-- C1 amended: for a non-empty query, and except when the query is `*`,
a buffer is focused and the `really search for all threads?` confirmation
is declined (in which case the command aborts with no change at all),
executing search with a query for which a matching search buffer exists
refocuses a matching search buffer and opens no new buffer; consequently
running search twice with the same query (first run not declined) results
in exactly one buffer with that querystring. -/
theorem search_dedup_refocus :
    (∀ (s : UIState) (q ans : String) (newId : Nat),
      q ≠ "" →
      ¬((q = "*" ∧ s.current.isSome = true) ∧ ans = "no") →
      (∃ b ∈ s.buffers, matchesQuery q b = true) →
      (SearchCommand.apply q ans newId s).buffers = s.buffers ∧
      ∃ b, (SearchCommand.apply q ans newId s).current = some b ∧
        b ∈ s.buffers ∧ matchesQuery q b = true) ∧
    (∀ (s : UIState) (q ans₁ ans₂ : String) (id₁ id₂ : Nat),
      q ≠ "" →
      ¬((q = "*" ∧ s.current.isSome = true) ∧ ans₁ = "no") →
      (∀ b ∈ s.buffers, matchesQuery q b = false) →
      ((SearchCommand.apply q ans₂ id₂ (SearchCommand.apply q ans₁ id₁ s)).buffers.filter
        (matchesQuery q)).length = 1) := by
  constructor
  · intro s q ans newId hq hg hmatch
    rw [search_apply_eq_dedup s q ans newId hq hg]
    exact dedup_refocus s q newId hmatch
  · intro s q ans₁ ans₂ id₁ id₂ hq hg hnone
    rw [search_apply_eq_dedup s q ans₁ id₁ hq hg, dedup_opens s q id₁ hnone]
    have hfilnil : s.buffers.filter (matchesQuery q) = [] :=
      List.filter_eq_nil_iff.mpr (fun b hb => by simp [hnone b hb])
    have hcount : ((buffer_open ⟨id₁, .search q⟩ s).buffers.filter (matchesQuery q)).length = 1 := by
      simp [buffer_open, List.filter_append, hfilnil, matchesQuery_new]
    by_cases hg₂ :
        (q = "*" ∧ (buffer_open ⟨id₁, .search q⟩ s).current.isSome = true) ∧ ans₂ = "no"
    · unfold SearchCommand.apply
      rw [if_pos hq, if_pos hg₂]
      exact hcount
    · rw [search_apply_eq_dedup _ q ans₂ id₂ hq hg₂]
      have hmatch₂ : ∃ b ∈ (buffer_open ⟨id₁, .search q⟩ s).buffers, matchesQuery q b = true :=
        ⟨⟨id₁, .search q⟩, by simp [buffer_open], matchesQuery_new q id₁⟩
      rw [(dedup_refocus (buffer_open ⟨id₁, .search q⟩ s) q id₂ hmatch₂).1]
      exact hcount

/-- C1 witness: a stack holding a search buffer for `foo`; searching `foo`
again keeps the stack and focuses a buffer with that querystring. -/
theorem search_dedup_refocus_witness :
    ("foo" ≠ "") ∧
    (∃ b ∈ (⟨[⟨0, .search "foo"⟩, ⟨1, .other 0⟩], some ⟨1, .other 0⟩, [], []⟩ :
        UIState).buffers, matchesQuery "foo" b = true) ∧
    ((SearchCommand.apply "foo" "yes" 5
        ⟨[⟨0, .search "foo"⟩, ⟨1, .other 0⟩], some ⟨1, .other 0⟩, [], []⟩).buffers =
      [⟨0, .search "foo"⟩, ⟨1, .other 0⟩] ∧
     ∃ b, (SearchCommand.apply "foo" "yes" 5
        ⟨[⟨0, .search "foo"⟩, ⟨1, .other 0⟩], some ⟨1, .other 0⟩, [], []⟩).current = some b ∧
       b ∈ (⟨[⟨0, .search "foo"⟩, ⟨1, .other 0⟩], some ⟨1, .other 0⟩, [], []⟩ :
        UIState).buffers ∧ matchesQuery "foo" b = true) :=
  ⟨by decide, ⟨⟨0, .search "foo"⟩, by decide, by decide⟩,
   search_dedup_refocus.1 ⟨[⟨0, .search "foo"⟩, ⟨1, .other 0⟩], some ⟨1, .other 0⟩, [], []⟩
     "foo" "yes" 5 (by decide) (by decide) ⟨⟨0, .search "foo"⟩, by decide, by decide⟩⟩

/-- Helper: one focus-by-offset step from the buffer at index `i` of a
duplicate-free stack lands on the buffer at index `(i + k) mod n` and
changes nothing else. -/
theorem bufferFocus_step (s : UIState) (i : Nat) (k : Int)
    (hnd : s.buffers.Nodup) (hi : i < s.buffers.length)
    (hc : s.current = s.buffers[i]?) (hk : k ≠ 0) :
    BufferFocusCommand.apply k none s =
      .ok ⟨s.buffers, s.buffers[(((i : Int) + k).emod (s.buffers.length : Int)).toNat]?,
           s.notes, s.alarms⟩ := by
  have hn : 0 < s.buffers.length := Nat.lt_of_le_of_lt (Nat.zero_le i) hi
  have hcur : s.current = some s.buffers[i] := by rw [hc, List.getElem?_eq_getElem hi]
  have hmem : s.buffers[i] ∈ s.buffers := List.getElem_mem hi
  have hidx : s.buffers.indexOf s.buffers[i] = i := List.indexOf_getElem hnd i hi
  have h0 : (0 : Int) < (s.buffers.length : Int) := by exact_mod_cast hn
  have h1 : 0 ≤ ((i : Int) + k).emod (s.buffers.length : Int) :=
    Int.emod_nonneg _ (by omega)
  have h2 : ((i : Int) + k).emod (s.buffers.length : Int) < (s.buffers.length : Int) :=
    Int.emod_lt_of_pos _ h0
  have hlt : (((i : Int) + k).emod (s.buffers.length : Int)).toNat < s.buffers.length := by
    omega
  unfold BufferFocusCommand.apply
  rw [if_pos hk]
  rw [hcur]
  simp only [if_pos hmem, hidx]
  rw [List.getElem?_eq_getElem hlt]
  rfl

/-- Helper: iterating next-focus `t` times from index `i` of a
duplicate-free stack lands on index `(i + t) mod n` and changes nothing
else. -/
theorem applyNextN_cycle (t : Nat) :
    ∀ (s : UIState) (i : Nat), s.buffers.Nodup → i < s.buffers.length →
      s.current = s.buffers[i]? →
      BufferFocusCommand.applyNextN t s =
        .ok ⟨s.buffers, s.buffers[(i + t) % s.buffers.length]?, s.notes, s.alarms⟩ := by
  induction t with
  | zero =>
    intro s i hnd hi hc
    have hmod : (i + 0) % s.buffers.length = i := by
      rw [Nat.add_zero]
      exact Nat.mod_eq_of_lt hi
    rw [hmod, ← hc]
    rfl
  | succ t ih =>
    intro s i hnd hi hc
    have hn : 0 < s.buffers.length := Nat.lt_of_le_of_lt (Nat.zero_le i) hi
    have hstep := bufferFocus_step s i 1 hnd hi hc one_ne_zero
    have hm : (((i : Int) + 1).emod (s.buffers.length : Int)).toNat =
        (i + 1) % s.buffers.length := by
      have h1 : ((i : Int) + 1) = ((i + 1 : Nat) : Int) := by push_cast; ring
      rw [h1]
      show ((((i + 1 : Nat) : Int)) % ((s.buffers.length : Nat) : Int)).toNat =
        (i + 1) % s.buffers.length
      rw [← Int.natCast_mod, Int.toNat_natCast]
    rw [hm] at hstep
    have hi' : (i + 1) % s.buffers.length < s.buffers.length := Nat.mod_lt _ hn
    have happ' : BufferFocusCommand.applyNextN t
        ⟨s.buffers, s.buffers[(i + 1) % s.buffers.length]?, s.notes, s.alarms⟩ =
        .ok ⟨s.buffers,
             s.buffers[((i + 1) % s.buffers.length + t) % s.buffers.length]?,
             s.notes, s.alarms⟩ :=
      ih ⟨s.buffers, s.buffers[(i + 1) % s.buffers.length]?, s.notes, s.alarms⟩
        ((i + 1) % s.buffers.length) hnd hi' rfl
    have hmod : ((i + 1) % s.buffers.length + t) % s.buffers.length =
        (i + (t + 1)) % s.buffers.length := by
      rw [Nat.mod_add_mod]
      congr 1
      omega
    rw [hmod] at happ'
    show (match BufferFocusCommand.apply 1 none s with
          | .ok s' => BufferFocusCommand.applyNextN t s'
          | .error e => .error e) = _
    rw [hstep]
    show BufferFocusCommand.applyNextN t
        ⟨s.buffers, s.buffers[(i + 1) % s.buffers.length]?, s.notes, s.alarms⟩ = _
    exact happ'

/-- C2: from a non-empty, duplicate-free buffer stack focused on the buffer
at index `i`, focus-by-offset with a non-zero offset `k` moves focus to the
buffer at index `(i + k) mod n` and changes nothing else; consequently
applying next-focus (offset +1) `n` times returns the application state,
focus included, to exactly where it started. -/
theorem bufferFocus_offset_mod_cycle (s : UIState) (i : Nat) (k : Int)
    (hnd : s.buffers.Nodup) (hi : i < s.buffers.length)
    (hc : s.current = s.buffers[i]?) (hk : k ≠ 0) :
    BufferFocusCommand.apply k none s =
      .ok ⟨s.buffers, s.buffers[(((i : Int) + k).emod (s.buffers.length : Int)).toNat]?,
           s.notes, s.alarms⟩ ∧
    BufferFocusCommand.applyNextN s.buffers.length s = .ok s := by
  refine ⟨bufferFocus_step s i k hnd hi hc hk, ?_⟩
  rw [applyNextN_cycle s.buffers.length s i hnd hi hc]
  have hmod : (i + s.buffers.length) % s.buffers.length = i := by
    rw [Nat.add_mod_right]
    exact Nat.mod_eq_of_lt hi
  rw [hmod, ← hc]

/-- C2 witness: a three-buffer stack focused at index 1; offset 2 lands on
index 0, and three next-focus steps return to the original state. -/
theorem bufferFocus_offset_mod_cycle_witness :
    ([⟨0, .other 0⟩, ⟨1, .other 1⟩, ⟨2, .other 2⟩] : List Buffer).Nodup ∧
    (BufferFocusCommand.apply 2 none
        ⟨[⟨0, .other 0⟩, ⟨1, .other 1⟩, ⟨2, .other 2⟩], some ⟨1, .other 1⟩, [], []⟩ =
      .ok ⟨[⟨0, .other 0⟩, ⟨1, .other 1⟩, ⟨2, .other 2⟩], some ⟨0, .other 0⟩, [], []⟩ ∧
     BufferFocusCommand.applyNextN 3
        ⟨[⟨0, .other 0⟩, ⟨1, .other 1⟩, ⟨2, .other 2⟩], some ⟨1, .other 1⟩, [], []⟩ =
      .ok ⟨[⟨0, .other 0⟩, ⟨1, .other 1⟩, ⟨2, .other 2⟩], some ⟨1, .other 1⟩, [], []⟩) :=
  ⟨by decide,
   bufferFocus_offset_mod_cycle
     ⟨[⟨0, .other 0⟩, ⟨1, .other 1⟩, ⟨2, .other 2⟩], some ⟨1, .other 1⟩, [], []⟩ 1 2
     (by decide) (by decide) (by decide) (by decide)⟩

end Alot
